import Mathlib

set_option maxRecDepth 1000000

/-!
Verification development for the Deel webhook integration.

The code under scrutiny is the `handleWebhook` route handler of
`src/src/integrations/deel/deel.controller.ts` together with the
configuration getter `DeelWebhookSigningKey` of `src/src/environment.ts`.
The handler reads the `x-deel-signature` header, recomputes an
HMAC-SHA256 signature (lowercase hex) over `'POST' + JSON.stringify(request.body)`
keyed by the configured signing secret, and compares the two with
Node's `crypto.timingSafeEqual`.

The embedding below models:
  * 32-bit arithmetic, SHA-256 and HMAC-SHA256 (the documented semantics of
    Node's `crypto.createHmac('sha256', key).update(msg).digest('hex')`,
    i.e. FIPS 180-4 SHA-256 with the RFC 2104 HMAC construction);
  * UTF-8 byte encoding of strings (the semantics of `Buffer.from(string)`);
  * `crypto.timingSafeEqual`, which per the Node documentation throws a
    `RangeError` when the two buffers have different byte lengths;
  * the JSON values produced by the body-parsing middleware, together with
    `JSON.stringify` and a parser for the JSON fragment exercised here;
  * the environment singleton and the route handler itself.
-/

namespace Chronos

/-- Truncation to a 32-bit machine word. -/
def w32 (x : Nat) : Nat := x % 4294967296

/-- 32-bit right rotation (input assumed below `2 ^ 32`). -/
def rotr32 (n x : Nat) : Nat := w32 ((x >>> n) ||| (x <<< (32 - n)))

/-- SHA-256 `Ch` function. -/
def chFn (x y z : Nat) : Nat := (x &&& y) ^^^ ((x ^^^ 0xffffffff) &&& z)

/-- SHA-256 `Maj` function. -/
def majFn (x y z : Nat) : Nat := (x &&& y) ^^^ (x &&& z) ^^^ (y &&& z)

/-- SHA-256 big sigma 0. -/
def bigSig0 (x : Nat) : Nat := rotr32 2 x ^^^ rotr32 13 x ^^^ rotr32 22 x

/-- SHA-256 big sigma 1. -/
def bigSig1 (x : Nat) : Nat := rotr32 6 x ^^^ rotr32 11 x ^^^ rotr32 25 x

/-- SHA-256 small sigma 0. -/
def smallSig0 (x : Nat) : Nat := rotr32 7 x ^^^ rotr32 18 x ^^^ (x >>> 3)

/-- SHA-256 small sigma 1. -/
def smallSig1 (x : Nat) : Nat := rotr32 17 x ^^^ rotr32 19 x ^^^ (x >>> 10)

/-- The eight 32-bit working variables of the SHA-256 compression function. -/
structure Sha256State where
  a : Nat
  b : Nat
  c : Nat
  d : Nat
  e : Nat
  f : Nat
  g : Nat
  h : Nat
deriving DecidableEq

/-- SHA-256 initial hash value (FIPS 180-4 §5.3.3), in decimal. -/
def shaInit : Sha256State :=
  ⟨1779033703, 3144134277, 1013904242, 2773480762,
   1359893119, 2600822924, 528734635, 1541459225⟩

/-- SHA-256 round constants (FIPS 180-4 §4.2.2), in decimal. -/
def shaK : List Nat :=
  [1116352408, 1899447441, 3049323471, 3921009573, 961987163, 1508970993,
   2453635748, 2870763221, 3624381080, 310598401, 607225278, 1426881987,
   1925078388, 2162078206, 2614888103, 3248222580, 3835390401, 4022224774,
   264347078, 604807628, 770255983, 1249150122, 1555081692, 1996064986,
   2554220882, 2821834349, 2952996808, 3210313671, 3336571891, 3584528711,
   113926993, 338241895, 666307205, 773529912, 1294757372, 1396182291,
   1695183700, 1986661051, 2177026350, 2456956037, 2730485921, 2820302411,
   3259730800, 3345764771, 3516065817, 3600352804, 4094571909, 275423344,
   430227734, 506948616, 659060556, 883997877, 958139571, 1322822218,
   1537002063, 1747873779, 1955562222, 2024104815, 2227730452, 2361852424,
   2428436474, 2756734187, 3204031479, 3329325298]

/-- Extend the 16-word message schedule by `n` further words
(`W t = smallSig1 (W (t-2)) + W (t-7) + smallSig0 (W (t-15)) + W (t-16)`). -/
def scheduleExtend : Nat → List Nat → List Nat
  | 0, w => w
  | n + 1, w =>
      let t := w.length
      scheduleExtend n
        (w ++ [w32 (smallSig1 (w.getD (t - 2) 0) + w.getD (t - 7) 0 +
                    smallSig0 (w.getD (t - 15) 0) + w.getD (t - 16) 0)])

/-- One round of the SHA-256 compression function. -/
def shaRound (s : Sha256State) (k w : Nat) : Sha256State :=
  let t1 := w32 (s.h + bigSig1 s.e + chFn s.e s.f s.g + k + w)
  let t2 := w32 (bigSig0 s.a + majFn s.a s.b s.c)
  ⟨w32 (t1 + t2), s.a, s.b, s.c, w32 (s.d + t1), s.e, s.f, s.g⟩

/-- Fold the 64 rounds over the round constants and the message schedule. -/
def shaRounds : List Nat → List Nat → Sha256State → Sha256State
  | k :: ks, w :: ws, s => shaRounds ks ws (shaRound s k w)
  | _, _, s => s

/-- Regroup a byte stream into big-endian 32-bit words. -/
def bytesToWords : List Nat → List Nat
  | b0 :: b1 :: b2 :: b3 :: rest =>
      (b0 * 16777216 + b1 * 65536 + b2 * 256 + b3) :: bytesToWords rest
  | _ => []

/-- Compress one 64-byte block into the running hash state. -/
def shaCompress (s : Sha256State) (block : List Nat) : Sha256State :=
  let w := scheduleExtend 48 (bytesToWords block)
  let r := shaRounds shaK w s
  ⟨w32 (s.a + r.a), w32 (s.b + r.b), w32 (s.c + r.c), w32 (s.d + r.d),
   w32 (s.e + r.e), w32 (s.f + r.f), w32 (s.g + r.g), w32 (s.h + r.h)⟩

/-- Consume the padded message 64 bytes at a time (the fuel bounds the number
of blocks; the padded length is always reached before the fuel runs out). -/
def shaBlocks : Nat → Sha256State → List Nat → Sha256State
  | _, s, [] => s
  | 0, s, _ => s
  | fuel + 1, s, msg => shaBlocks fuel (shaCompress s (msg.take 64)) (msg.drop 64)

/-- Big-endian bytes of a 32-bit word. -/
def wordBytes (x : Nat) : List Nat :=
  [x / 16777216 % 256, x / 65536 % 256, x / 256 % 256, x % 256]

/-- Big-endian 8-byte encoding of the message bit length. -/
def lenBytes64 (n : Nat) : List Nat :=
  [n / 2 ^ 56 % 256, n / 2 ^ 48 % 256, n / 2 ^ 40 % 256, n / 2 ^ 32 % 256,
   n / 2 ^ 24 % 256, n / 2 ^ 16 % 256, n / 2 ^ 8 % 256, n % 256]

/-- SHA-256 padding: a `0x80` byte, zeros to 56 mod 64, then the bit length. -/
def shaPad (msg : List Nat) : List Nat :=
  msg ++ 0x80 :: (List.replicate ((120 - (msg.length + 1) % 64) % 64) 0 ++ lenBytes64 (msg.length * 8))

/-- SHA-256 of a byte string, as 32 bytes. -/
def sha256 (msg : List Nat) : List Nat :=
  let p := shaPad msg
  let s := shaBlocks p.length shaInit p
  wordBytes s.a ++ wordBytes s.b ++ wordBytes s.c ++ wordBytes s.d ++
  wordBytes s.e ++ wordBytes s.f ++ wordBytes s.g ++ wordBytes s.h

/-- UTF-8 encoding of one character. -/
def utf8Bytes (c : Char) : List Nat :=
  let n := c.toNat
  if n < 0x80 then [n]
  else if n < 0x800 then [0xc0 ||| (n >>> 6), 0x80 ||| (n &&& 0x3f)]
  else if n < 0x10000 then
    [0xe0 ||| (n >>> 12), 0x80 ||| ((n >>> 6) &&& 0x3f), 0x80 ||| (n &&& 0x3f)]
  else
    [0xf0 ||| (n >>> 18), 0x80 ||| ((n >>> 12) &&& 0x3f),
     0x80 ||| ((n >>> 6) &&& 0x3f), 0x80 ||| (n &&& 0x3f)]

/-- UTF-8 bytes of a string — the byte content of `Buffer.from(s)` in Node. -/
def strBytes (s : String) : List Nat := (s.data.map utf8Bytes).flatten

/-- Byte length of a string under UTF-8 — `Buffer.from(s).length` in Node. -/
def byteLen (s : String) : Nat := (strBytes s).length

/-- HMAC key preprocessing: hash keys longer than the 64-byte block, then
zero-pad to exactly 64 bytes (RFC 2104). -/
def hmacKeyBlock (key : List Nat) : List Nat :=
  let k0 := if key.length > 64 then sha256 key else key
  k0 ++ List.replicate (64 - k0.length) 0

/-- HMAC-SHA256 over byte strings (RFC 2104): the outer hash of the
`0x5c`-masked key block prepended to the inner hash of the `0x36`-masked
key block and the message. -/
def hmacSha256 (key msg : List Nat) : List Nat :=
  sha256 (((hmacKeyBlock key).map (fun b => b ^^^ 0x5c)) ++
          sha256 (((hmacKeyBlock key).map (fun b => b ^^^ 0x36)) ++ msg))

/-- Lowercase hexadecimal digit for `x % 16`. -/
def hexDigit (x : Nat) : Char :=
  let n := x % 16
  if n < 10 then Char.ofNat (48 + n) else Char.ofNat (87 + n)

/-- Lowercase hex characters of a byte string, two per byte. -/
def toHexChars (bs : List Nat) : List Char :=
  (bs.map (fun b => [hexDigit (b / 16), hexDigit b])).flatten

/-- Lowercase hex rendering of a byte string (`digest('hex')`). -/
def toHex (bs : List Nat) : String := String.mk (toHexChars bs)

/-- `crypto.createHmac('sha256', key).update(msg).digest('hex')` for string
inputs: HMAC-SHA256 over their UTF-8 bytes, rendered as lowercase hex. -/
def hmacSha256Hex (key msg : String) : String := toHex (hmacSha256 (strBytes key) (strBytes msg))

/-- JSON values, as the body-parsing middleware delivers them in
`request.body`. Numbers are restricted to integers: every number in the
requests considered here is integral, and nothing below depends on
non-integral numbers. Object fields keep their insertion order. -/
inductive Json where
  | null
  | bool (flag : Bool)
  | num (int : Int)
  | str (text : String)
  | arr (items : List Json)
  | obj (entries : List (String × Json))

/-- JSON string escaping as performed by `JSON.stringify`: quote, backslash,
the named control escapes, and `\u00XX` for the remaining control characters. -/
def escapeChar (c : Char) : List Char :=
  if c = '"' then ['\\', '"']
  else if c = '\\' then ['\\', '\\']
  else if c = '\x08' then ['\\', 'b']
  else if c = '\x09' then ['\\', 't']
  else if c = '\x0a' then ['\\', 'n']
  else if c = '\x0c' then ['\\', 'f']
  else if c = '\x0d' then ['\\', 'r']
  else if c.toNat < 0x20 then ['\\', 'u', '0', '0', hexDigit (c.toNat / 16), hexDigit c.toNat]
  else [c]

/-- A JSON string literal: the escaped characters between double quotes. -/
def quoteStr (s : String) : String :=
  String.mk ('"' :: ((s.data.map escapeChar).flatten ++ ['"']))

mutual

/-- `JSON.stringify`: no whitespace, fields in insertion order, separators
`,` and `:`, strings escaped as above. -/
def jsonStringify : Json → String
  | .null => "null"
  | .bool true => "true"
  | .bool false => "false"
  | .num n => toString n
  | .str s => quoteStr s
  | .arr xs => "[" ++ stringifyElems xs ++ "]"
  | .obj fs => "\x7b" ++ stringifyFields fs ++ "\x7d"

/-- Array elements of `JSON.stringify`, comma-separated. -/
def stringifyElems : List Json → String
  | [] => ""
  | [x] => jsonStringify x
  | x :: y :: rest => jsonStringify x ++ "," ++ stringifyElems (y :: rest)

/-- Object fields of `JSON.stringify`, comma-separated `"key":value`. -/
def stringifyFields : List (String × Json) → String
  | [] => ""
  | [(k, v)] => quoteStr k ++ ":" ++ jsonStringify v
  | (k, v) :: kv :: rest => quoteStr k ++ ":" ++ jsonStringify v ++ "," ++ stringifyFields (kv :: rest)

end

/-- JSON insignificant whitespace. -/
def isWs (c : Char) : Bool := c = ' ' || c = '\x09' || c = '\x0a' || c = '\x0d'

/-- Drop leading JSON whitespace. -/
def skipWs : List Char → List Char
  | c :: rest => if isWs c then skipWs rest else c :: rest
  | [] => []

/-- Parse the body of a JSON string literal after its opening quote,
handling the single-character escapes; returns the decoded characters and
the input after the closing quote. -/
def parseStringChars : Nat → List Char → Option (List Char × List Char)
  | _, '"' :: rest => some ([], rest)
  | fuel + 1, '\\' :: c :: rest => do
      let e ← match c with
        | '"' => some '"'
        | '\\' => some '\\'
        | '/' => some '/'
        | 'b' => some '\x08'
        | 'f' => some '\x0c'
        | 'n' => some '\x0a'
        | 'r' => some '\x0d'
        | 't' => some '\x09'
        | _ => none
      let (cs, r) ← parseStringChars fuel rest
      some (e :: cs, r)
  | fuel + 1, c :: rest => do
      let (cs, r) ← parseStringChars fuel rest
      some (c :: cs, r)
  | _, _ => none

/-- Split a leading run of decimal digits from the input. -/
def takeDigits : List Char → List Char × List Char
  | c :: rest =>
      if c.isDigit then
        let (ds, r) := takeDigits rest
        (c :: ds, r)
      else ([], c :: rest)
  | [] => ([], [])

/-- Numeric value of a digit run. -/
def digitsToNat (ds : List Char) : Nat := ds.foldl (fun acc c => acc * 10 + (c.toNat - 48)) 0

mutual

/-- Parser for the JSON fragment the webhook bodies live in (objects,
arrays, strings with the single-character escapes, integers, literals),
modelling `JSON.parse` as invoked by the body-parsing middleware; the fuel
bounds the nesting and is always sufficient for the concrete inputs used. -/
def parseVal : Nat → List Char → Option (Json × List Char)
  | 0, _ => none
  | fuel + 1, input =>
      match skipWs input with
      | 'n' :: 'u' :: 'l' :: 'l' :: rest => some (.null, rest)
      | 't' :: 'r' :: 'u' :: 'e' :: rest => some (.bool true, rest)
      | 'f' :: 'a' :: 'l' :: 's' :: 'e' :: rest => some (.bool false, rest)
      | '"' :: rest => do
          let (cs, r) ← parseStringChars fuel rest
          some (.str (String.mk cs), r)
      | '-' :: rest =>
          match takeDigits rest with
          | ([], _) => none
          | (ds, r) => some (.num (-(digitsToNat ds : Int)), r)
      | '[' :: rest =>
          (match skipWs rest with
           | ']' :: r => some (.arr [], r)
           | _ => do
               let (vs, r) ← parseElems fuel rest
               some (.arr vs, r))
      | '\x7b' :: rest =>
          (match skipWs rest with
           | '\x7d' :: r => some (.obj [], r)
           | _ => do
               let (fs, r) ← parseFields fuel rest
               some (.obj fs, r))
      | c :: rest =>
          if c.isDigit then
            let (ds, r) := takeDigits (c :: rest)
            some (.num (digitsToNat ds), r)
          else none
      | [] => none

/-- Comma-separated array elements up to the closing bracket. -/
def parseElems : Nat → List Char → Option (List Json × List Char)
  | 0, _ => none
  | fuel + 1, input => do
      let (v, r) ← parseVal fuel input
      match skipWs r with
      | ',' :: r2 => do
          let (vs, r3) ← parseElems fuel r2
          some (v :: vs, r3)
      | ']' :: r2 => some ([v], r2)
      | _ => none

/-- Comma-separated object fields up to the closing brace. -/
def parseFields : Nat → List Char → Option (List (String × Json) × List Char)
  | 0, _ => none
  | fuel + 1, input =>
      match skipWs input with
      | '"' :: r => do
          let (k, r1) ← parseStringChars fuel r
          match skipWs r1 with
          | ':' :: r2 => do
              let (v, r3) ← parseVal fuel r2
              match skipWs r3 with
              | ',' :: r4 => do
                  let (fs, r5) ← parseFields fuel r4
                  some ((String.mk k, v) :: fs, r5)
              | '\x7d' :: r4 => some ([(String.mk k, v)], r4)
              | _ => none
          | _ => none
      | _ => none

end

/-- `JSON.parse` on a whole document: one value, then only trailing
whitespace. -/
def Json.parse (s : String) : Option Json :=
  match parseVal (s.data.length + 1) s.data with
  | some (j, rest) => if (skipWs rest).isEmpty then some j else none
  | none => none

/-- The process environment as read by `src/src/environment.ts`; only the
variable the webhook route consults is modelled. `none` is an unset
variable. -/
structure Env where
  DEEL_WEBHOOK_SIGNING_KEY : Option String

/-- The `DeelWebhookSigningKey` getter of `src/src/environment.ts`:
`process.env.DEEL_WEBHOOK_SIGNING_KEY || ''` — an unset (or empty)
variable is read as the empty string. -/
def DeelWebhookSigningKey (env : Env) : String := env.DEEL_WEBHOOK_SIGNING_KEY.getD ""

/-- An inbound HTTP request as the controller receives it: the verb, the
header map, the raw body bytes from the wire (kept as a string of Latin-1
characters, one per byte), and the value the JSON body-parsing middleware
stored in `request.body`. -/
structure Request where
  httpMethod : String
  headers : List (String × String)
  rawBodyBytes : String
  body : Json

/-- `request.headers[name]`: `none` models JavaScript `undefined` for an
absent header. -/
def getHeader (req : Request) (name : String) : Option String :=
  (req.headers.find? (fun kv => kv.1 == name)).map (fun kv => kv.2)

/-- JavaScript truthiness test `!x` for a string-or-undefined value:
`undefined` and the empty string are both falsy. -/
def strFalsy : Option String → Bool
  | none => true
  | some s => s == ""

/-- The observable outcomes of `handleWebhook`, seen from the HTTP layer:
return normally (accepted), throw `UnauthorizedException` (401), throw
`InternalServerErrorException` (500), or let a `RangeError` raised by
`crypto.timingSafeEqual` escape unhandled. -/
inductive WebhookOutcome where
  | accepted
  | unauthorized (msg : String)
  | internalError (msg : String)
  | rangeError (msg : String)
deriving DecidableEq

/-- Node's `crypto.timingSafeEqual` applied to `Buffer.from` of two strings:
per its documentation it throws a `RangeError` when the byte lengths differ
(modelled as `Except.error`), and otherwise reports byte-wise equality. -/
def timingSafeEqual (x y : String) : Except String Bool :=
  if byteLen x = byteLen y then .ok (strBytes x == strBytes y)
  else .error "Input buffers must have the same byte length"

/-- The message the controller signs — `'POST' + JSON.stringify(rawBody)`
from line 39 of `deel.controller.ts`, where `rawBody` is the already parsed
`request.body`: the verb is hard-coded (the route only accepts POST) and the
body is re-serialized rather than taken from the wire. -/
def signedMessage (body : Json) : String := "POST" ++ jsonStringify body

/-- Shallow embedding of `DeelController.handleWebhook`
(`src/src/integrations/deel/deel.controller.ts`, lines 24–53): check the
`x-deel-signature` header for presence, check the configured signing key,
recompute the HMAC-SHA256 hex signature of the signed message, and compare
with `crypto.timingSafeEqual`. -/
def handleWebhook (env : Env) (req : Request) : WebhookOutcome :=
  let signature := getHeader req "x-deel-signature"
  if strFalsy signature then .unauthorized "Missing signature header"
  else
    let rawBody := req.body
    let signingKey := DeelWebhookSigningKey env
    if signingKey == "" then .internalError "Webhook signing key not configured"
    else
      let expectedSignature := hmacSha256Hex signingKey (signedMessage rawBody)
      match timingSafeEqual (signature.getD "") expectedSignature with
      | .error msg => .rangeError msg
      | .ok true => .accepted
      | .ok false => .unauthorized "Invalid signature"

/-- The reject reasons of the specification's Verification Result (§3). -/
inductive RejectReason where
  | missingSignatureHeader
  | signingSecretNotConfigured
  | signatureMismatch
deriving DecidableEq

/-- The specification's Verification Result: `Authentic` or
`Rejected(reason)`. -/
inductive VerificationResult where
  | authentic
  | rejected (reason : RejectReason)
deriving DecidableEq

/-- Read a handler outcome in the specification's vocabulary: the three
rejection messages of the code realize the three spec reject reasons, a
normal return realizes `Authentic`, and an escaped `RangeError` has no
Verification Result at all. -/
def toResult : WebhookOutcome → Option VerificationResult
  | .accepted => some .authentic
  | .unauthorized m =>
      if m == "Missing signature header" then some (.rejected .missingSignatureHeader)
      else if m == "Invalid signature" then some (.rejected .signatureMismatch)
      else none
  | .internalError m =>
      if m == "Webhook signing key not configured" then some (.rejected .signingSecretNotConfigured)
      else none
  | .rangeError _ => none

/-- Flip bit `k` of the byte at position `i` of a byte string. -/
def flipBit (i k : Nat) (bs : List Nat) : List Nat := bs.set i (bs.getD i 0 ^^^ (1 <<< k))

/-! Helper lemmas about the hex digest. -/

theorem toHexChars_cons (b : Nat) (bs : List Nat) :
    toHexChars (b :: bs) = hexDigit (b / 16) :: hexDigit b :: toHexChars bs := rfl

theorem toHexChars_length (bs : List Nat) : (toHexChars bs).length = 2 * bs.length := by
  induction bs with
  | nil => rfl
  | cons b bs ih =>
      rw [toHexChars_cons]
      simp only [List.length_cons, ih]
      omega

theorem hexDigit_mod (x : Nat) : hexDigit x = hexDigit (x % 16) := by
  simp only [hexDigit, Nat.mod_mod_of_dvd x (dvd_refl 16)]

theorem hexDigit_ascii (x : Nat) : (hexDigit x).toNat < 128 := by
  have h : ∀ n, n < 16 → (hexDigit n).toNat < 128 := by decide
  rw [hexDigit_mod]
  exact h _ (Nat.mod_lt x (by decide))

theorem toHexChars_ascii (bs : List Nat) : ∀ c ∈ toHexChars bs, c.toNat < 128 := by
  induction bs with
  | nil => intro c hc; simp [toHexChars] at hc
  | cons b bs ih =>
      intro c hc
      rw [toHexChars_cons] at hc
      rcases List.mem_cons.mp hc with h | h
      · subst h; exact hexDigit_ascii _
      · rcases List.mem_cons.mp h with h2 | h2
        · subst h2; exact hexDigit_ascii _
        · exact ih c h2

theorem utf8Bytes_ascii (c : Char) (h : c.toNat < 128) : utf8Bytes c = [c.toNat] := by
  simp [utf8Bytes, h]

theorem utf8_flatten_ascii (cs : List Char) (h : ∀ c ∈ cs, c.toNat < 128) :
    ((cs.map utf8Bytes).flatten).length = cs.length := by
  induction cs with
  | nil => rfl
  | cons c cs ih =>
      rw [List.map_cons, List.flatten_cons, List.length_append,
          utf8Bytes_ascii c (h c (List.mem_cons_self c cs)),
          ih (fun d hd => h d (List.mem_cons_of_mem c hd))]
      simp only [List.length_singleton, List.length_cons, List.length_nil]
      omega

theorem sha256_length (m : List Nat) : (sha256 m).length = 32 := by
  simp [sha256, wordBytes]

theorem hmacSha256_length (key msg : List Nat) : (hmacSha256 key msg).length = 32 :=
  sha256_length _

theorem hmacSha256Hex_data_length (k m : String) : (hmacSha256Hex k m).data.length = 64 := by
  have h : (hmacSha256Hex k m).data = toHexChars (hmacSha256 (strBytes k) (strBytes m)) := rfl
  rw [h, toHexChars_length, hmacSha256_length]

theorem hmacSha256Hex_ne_empty (k m : String) : hmacSha256Hex k m ≠ "" := by
  intro h
  have h2 : (hmacSha256Hex k m).data.length = ("" : String).data.length := by rw [h]
  rw [hmacSha256Hex_data_length] at h2
  exact absurd h2 (by decide)

theorem byteLen_toHex (bs : List Nat) : byteLen (toHex bs) = 2 * bs.length := by
  have h : byteLen (toHex bs) = ((toHexChars bs).map utf8Bytes).flatten.length := rfl
  rw [h, utf8_flatten_ascii (toHexChars bs) (toHexChars_ascii bs), toHexChars_length]

theorem byteLen_hmacSha256Hex (k m : String) : byteLen (hmacSha256Hex k m) = 64 := by
  have h : byteLen (hmacSha256Hex k m) =
      byteLen (toHex (hmacSha256 (strBytes k) (strBytes m))) := rfl
  rw [h, byteLen_toHex, hmacSha256_length]

theorem timingSafeEqual_self (s : String) : timingSafeEqual s s = .ok true := by
  simp [timingSafeEqual]

/-- Validation of the SHA-256 embedding against the FIPS 180-4 `"abc"` test
vector. -/
theorem sha256_abc_vector :
    toHex (sha256 (strBytes "abc")) =
      "ba7816bf8f01cfea414140de5dae2223b00361a396177a9cb410ff61f20015ad" := by
  decide

/-- C1: for every body, method and non-empty secret, presenting exactly the
locally computable expected signature — the lowercase-hex HMAC-SHA256, keyed
by the secret, of the message the verifier signs — makes `handleWebhook`
accept: the request is `Authentic` and not rejected. The verb inside the
signed message is the constant `POST`, which is the method of every request
the `@Post('webhook')` route delivers to the verifier; the request's method
field is universally quantified and never consulted by the handler. -/
theorem C1_roundTrip_accepted (env : Env) (req : Request) (m s : String)
    (hmeth : req.httpMethod = m)
    (hkey : DeelWebhookSigningKey env = s) (hs : s ≠ "")
    (hsig : getHeader req "x-deel-signature" =
      some (hmacSha256Hex s (signedMessage req.body))) :
    handleWebhook env req = .accepted ∧
    toResult (handleWebhook env req) = some .authentic := by
  have hne := hmacSha256Hex_ne_empty s (signedMessage req.body)
  have h1 : handleWebhook env req = .accepted := by
    simp [handleWebhook, hsig, hkey, strFalsy, hne, hs, timingSafeEqual_self]
  exact ⟨h1, by rw [h1]; decide⟩

/-- Witness for C1: the concrete webhook body, `POST` method and secret
`topsecret`, with the header set to the verifier's own expected signature. -/
theorem C1_roundTrip_accepted_witness :
    handleWebhook ⟨some "topsecret"⟩
        ⟨"POST",
          [("x-deel-signature",
            hmacSha256Hex "topsecret"
              (signedMessage (Json.obj [("event", Json.str "contract.signed")])))],
          "\x7b\"event\":\"contract.signed\"\x7d",
          Json.obj [("event", Json.str "contract.signed")]⟩ = .accepted ∧
    toResult (handleWebhook ⟨some "topsecret"⟩
        ⟨"POST",
          [("x-deel-signature",
            hmacSha256Hex "topsecret"
              (signedMessage (Json.obj [("event", Json.str "contract.signed")])))],
          "\x7b\"event\":\"contract.signed\"\x7d",
          Json.obj [("event", Json.str "contract.signed")]⟩) = some .authentic :=
  C1_roundTrip_accepted _ _ "POST" "topsecret" rfl rfl (by decide) rfl

/-- C2 (code evaluated at the failing input): the wire body
`\x7b"event": "x"\x7d` — note the space — parses to an object whose
`JSON.stringify` re-serialization drops the space, so the message the
controller signs is NOT the uppercase method followed by the raw body
bytes: there is a parse-and-re-encode step (`'POST' + JSON.stringify(request.body)`,
line 39). Consequently the sender's signature computed over the raw bytes,
as the claim prescribes, is rejected as invalid. -/
theorem C2_reserialized_message_differs :
    Json.parse "\x7b\"event\": \"x\"\x7d" = some (Json.obj [("event", Json.str "x")]) ∧
    signedMessage (Json.obj [("event", Json.str "x")]) = "POST\x7b\"event\":\"x\"\x7d" ∧
    signedMessage (Json.obj [("event", Json.str "x")]) ≠
      "POST" ++ "\x7b\"event\": \"x\"\x7d" ∧
    handleWebhook ⟨some "topsecret"⟩
        ⟨"POST",
          [("x-deel-signature",
            hmacSha256Hex "topsecret" ("POST" ++ "\x7b\"event\": \"x\"\x7d"))],
          "\x7b\"event\": \"x\"\x7d",
          Json.obj [("event", Json.str "x")]⟩ = .unauthorized "Invalid signature" :=
  ⟨rfl, rfl, by decide, by decide⟩

/-- C3 (code evaluated at the failing input): a present claimed signature
`"abc"` has byte length 3, different from the 64 characters of the expected
signature, and `crypto.timingSafeEqual` then throws a `RangeError` that the
handler does not catch — there is no `Rejected("signature mismatch")`
result, contrary to the claim and to spec §4.1 step 4. -/
theorem C3_length_mismatch_range_error :
    handleWebhook ⟨some "topsecret"⟩
        ⟨"POST", [("x-deel-signature", "abc")],
          "\x7b\"event\":\"contract.signed\"\x7d",
          Json.obj [("event", Json.str "contract.signed")]⟩ =
      .rangeError "Input buffers must have the same byte length" ∧
    toResult (handleWebhook ⟨some "topsecret"⟩
        ⟨"POST", [("x-deel-signature", "abc")],
          "\x7b\"event\":\"contract.signed\"\x7d",
          Json.obj [("event", Json.str "contract.signed")]⟩) = none := by
  decide

/-- C5 counterexample: the claim quantifies over every PRESENT claimed
signature, but a header that is present with the empty string as its value
is swallowed by the JavaScript falsy test `!signature`: with the secret
simultaneously unset, the verifier reports the missing-header rejection,
not the configuration fault the claim requires. -/
theorem C5_counterexample :
    getHeader ⟨"POST", [("x-deel-signature", "")], "\x7b\x7d", Json.obj []⟩
      "x-deel-signature" = some "" ∧
    handleWebhook ⟨none⟩ ⟨"POST", [("x-deel-signature", "")], "\x7b\x7d", Json.obj []⟩ =
      .unauthorized "Missing signature header" ∧
    toResult (handleWebhook ⟨none⟩
        ⟨"POST", [("x-deel-signature", "")], "\x7b\x7d", Json.obj []⟩) ≠
      some (.rejected .signingSecretNotConfigured) := by
  decide

/-- C5 as amended: for every body, method, and present NON-EMPTY claimed
signature, an absent-or-empty signing secret is reported as the
configuration fault — an outcome distinct from the signature-mismatch
rejection — regardless of the claimed signature's value. -/
theorem C5_empty_secret_distinct_rejection (env : Env) (req : Request) (sig : String)
    (hsig : getHeader req "x-deel-signature" = some sig) (hne : sig ≠ "")
    (hkey : DeelWebhookSigningKey env = "") :
    handleWebhook env req = .internalError "Webhook signing key not configured" ∧
    toResult (handleWebhook env req) = some (.rejected .signingSecretNotConfigured) ∧
    some (VerificationResult.rejected .signingSecretNotConfigured) ≠
      some (VerificationResult.rejected .signatureMismatch) := by
  have h1 : handleWebhook env req = .internalError "Webhook signing key not configured" := by
    simp [handleWebhook, hsig, strFalsy, hne, hkey]
  exact ⟨h1, by rw [h1]; decide, by decide⟩

/-- Witness for the amended C5: the secret configured as the empty string
and the claimed signature that would have been correct had the secret been
`topsecret`. -/
theorem C5_empty_secret_distinct_rejection_witness :
    handleWebhook ⟨some ""⟩
        ⟨"POST",
          [("x-deel-signature",
            "d568af236383652d5ca14d7175a0ed8ffde1bcd22c8fa051caa7fdeaa39bb6ea")],
          "\x7b\"event\":\"contract.signed\"\x7d",
          Json.obj [("event", Json.str "contract.signed")]⟩ =
      .internalError "Webhook signing key not configured" ∧
    toResult (handleWebhook ⟨some ""⟩
        ⟨"POST",
          [("x-deel-signature",
            "d568af236383652d5ca14d7175a0ed8ffde1bcd22c8fa051caa7fdeaa39bb6ea")],
          "\x7b\"event\":\"contract.signed\"\x7d",
          Json.obj [("event", Json.str "contract.signed")]⟩) =
      some (.rejected .signingSecretNotConfigured) ∧
    some (VerificationResult.rejected .signingSecretNotConfigured) ≠
      some (VerificationResult.rejected .signatureMismatch) :=
  C5_empty_secret_distinct_rejection _ _
    "d568af236383652d5ca14d7175a0ed8ffde1bcd22c8fa051caa7fdeaa39bb6ea"
    rfl (by decide) rfl

/-- C6: an absent `x-deel-signature` header is rejected as the missing
signature header, for every environment — including one with no signing
secret configured — and every request body and method. -/
theorem C6_missing_signature_rejected (env : Env) (req : Request)
    (h : getHeader req "x-deel-signature" = none) :
    handleWebhook env req = .unauthorized "Missing signature header" ∧
    toResult (handleWebhook env req) = some (.rejected .missingSignatureHeader) := by
  have h1 : handleWebhook env req = .unauthorized "Missing signature header" := by
    simp [handleWebhook, h, strFalsy]
  exact ⟨h1, by rw [h1]; decide⟩

/-- Witness for C6: no signature header and no configured secret. -/
theorem C6_missing_signature_rejected_witness :
    handleWebhook ⟨none⟩
        ⟨"POST", [("content-type", "application/json")], "null", Json.null⟩ =
      .unauthorized "Missing signature header" ∧
    toResult (handleWebhook ⟨none⟩
        ⟨"POST", [("content-type", "application/json")], "null", Json.null⟩) =
      some (.rejected .missingSignatureHeader) :=
  C6_missing_signature_rejected _ _ rfl

/-- C7 (code evaluated at the failing input): flipping bit 7 — the byte's
high bit — of the first byte of the expected signature turns the ASCII
character `d` into `U+00E4`, whose UTF-8 encoding under `Buffer.from` takes
two bytes; the buffers then differ in length (65 vs 64) and
`crypto.timingSafeEqual` throws a `RangeError` instead of producing the
`Rejected("signature mismatch")` the claim requires. Flipping a low bit
(here bit 0 of the same byte) keeps the character ASCII and is rejected as
the claim states. The first conjuncts relate the two claimed signatures'
character codes to `flipBit` of the expected signature's character codes. -/
theorem C7_bitflip_range_error :
    ("ä568af236383652d5ca14d7175a0ed8ffde1bcd22c8fa051caa7fdeaa39bb6ea").data.map Char.toNat =
      flipBit 0 7 ((hmacSha256Hex "topsecret"
        (signedMessage (Json.obj [("event", Json.str "contract.signed")]))).data.map Char.toNat) ∧
    ("e568af236383652d5ca14d7175a0ed8ffde1bcd22c8fa051caa7fdeaa39bb6ea").data.map Char.toNat =
      flipBit 0 0 ((hmacSha256Hex "topsecret"
        (signedMessage (Json.obj [("event", Json.str "contract.signed")]))).data.map Char.toNat) ∧
    handleWebhook ⟨some "topsecret"⟩
        ⟨"POST",
          [("x-deel-signature",
            "ä568af236383652d5ca14d7175a0ed8ffde1bcd22c8fa051caa7fdeaa39bb6ea")],
          "\x7b\"event\":\"contract.signed\"\x7d",
          Json.obj [("event", Json.str "contract.signed")]⟩ =
      .rangeError "Input buffers must have the same byte length" ∧
    handleWebhook ⟨some "topsecret"⟩
        ⟨"POST",
          [("x-deel-signature",
            "e568af236383652d5ca14d7175a0ed8ffde1bcd22c8fa051caa7fdeaa39bb6ea")],
          "\x7b\"event\":\"contract.signed\"\x7d",
          Json.obj [("event", Json.str "contract.signed")]⟩ =
      .unauthorized "Invalid signature" := by
  refine ⟨by decide, by decide, by decide, by decide⟩

/-- C8: the concrete scenario of spec §8 — method `POST`, body
`\x7b"event":"contract.signed"\x7d`, secret `topsecret`. The expected
signature is the lowercase-hex HMAC-SHA256 of the signed message
(`d568…b6ea`); supplying exactly that value is accepted as `Authentic`, and
supplying it with the final hex character changed from `a` to `b` is
rejected as the signature mismatch. -/
theorem C8_concrete_scenario :
    signedMessage (Json.obj [("event", Json.str "contract.signed")]) =
      "POST\x7b\"event\":\"contract.signed\"\x7d" ∧
    hmacSha256Hex "topsecret" "POST\x7b\"event\":\"contract.signed\"\x7d" =
      "d568af236383652d5ca14d7175a0ed8ffde1bcd22c8fa051caa7fdeaa39bb6ea" ∧
    handleWebhook ⟨some "topsecret"⟩
        ⟨"POST",
          [("x-deel-signature",
            "d568af236383652d5ca14d7175a0ed8ffde1bcd22c8fa051caa7fdeaa39bb6ea")],
          "\x7b\"event\":\"contract.signed\"\x7d",
          Json.obj [("event", Json.str "contract.signed")]⟩ = .accepted ∧
    toResult (handleWebhook ⟨some "topsecret"⟩
        ⟨"POST",
          [("x-deel-signature",
            "d568af236383652d5ca14d7175a0ed8ffde1bcd22c8fa051caa7fdeaa39bb6ea")],
          "\x7b\"event\":\"contract.signed\"\x7d",
          Json.obj [("event", Json.str "contract.signed")]⟩) = some .authentic ∧
    handleWebhook ⟨some "topsecret"⟩
        ⟨"POST",
          [("x-deel-signature",
            "d568af236383652d5ca14d7175a0ed8ffde1bcd22c8fa051caa7fdeaa39bb6eb")],
          "\x7b\"event\":\"contract.signed\"\x7d",
          Json.obj [("event", Json.str "contract.signed")]⟩ =
      .unauthorized "Invalid signature" ∧
    toResult (handleWebhook ⟨some "topsecret"⟩
        ⟨"POST",
          [("x-deel-signature",
            "d568af236383652d5ca14d7175a0ed8ffde1bcd22c8fa051caa7fdeaa39bb6eb")],
          "\x7b\"event\":\"contract.signed\"\x7d",
          Json.obj [("event", Json.str "contract.signed")]⟩) =
      some (.rejected .signatureMismatch) := by
  refine ⟨rfl, by decide, by decide, by decide, by decide, by decide⟩

/-- C9: the verifier is a pure, deterministic function of the signature
header, the parsed body, and the configured secret: two invocations that
agree on those three agree on the outcome, whatever the method, the other
headers, the raw body bytes or the rest of the environment. -/
theorem C9_pure_deterministic (env1 env2 : Env) (r1 r2 : Request)
    (hsig : getHeader r1 "x-deel-signature" = getHeader r2 "x-deel-signature")
    (hbody : r1.body = r2.body)
    (hkey : DeelWebhookSigningKey env1 = DeelWebhookSigningKey env2) :
    handleWebhook env1 r1 = handleWebhook env2 r2 := by
  unfold handleWebhook
  rw [hsig, hbody, hkey]

/-- Witness for C9: the two requests differ in method, extra headers and
raw bytes, and the two environments differ (unset vs empty secret), yet
the outcomes coincide. -/
theorem C9_pure_deterministic_witness :
    handleWebhook ⟨none⟩
        ⟨"POST", [("x-deel-signature", "sig"), ("content-type", "application/json")],
          "raw-one", Json.null⟩ =
      handleWebhook ⟨some ""⟩ ⟨"GET", [("x-deel-signature", "sig")], "raw-two", Json.null⟩ :=
  C9_pure_deterministic _ _ _ _ rfl rfl rfl

/-- C10: the missing-signature check precedes the configuration check —
with the header absent and the secret simultaneously absent or empty, the
outcome is the missing-header rejection, not the configuration fault. -/
theorem C10_missing_header_takes_precedence (env : Env) (req : Request)
    (hsig : getHeader req "x-deel-signature" = none)
    (hkey : DeelWebhookSigningKey env = "") :
    handleWebhook env req = .unauthorized "Missing signature header" ∧
    handleWebhook env req ≠ .internalError "Webhook signing key not configured" := by
  have h1 : handleWebhook env req = .unauthorized "Missing signature header" := by
    simp [handleWebhook, hsig, strFalsy]
  exact ⟨h1, by rw [h1]; decide⟩

/-- Witness for C10: no signature header, secret configured as the empty
string (the getter also reads an unset variable as this value). -/
theorem C10_missing_header_takes_precedence_witness :
    handleWebhook ⟨some ""⟩ ⟨"POST", [], "\x7b\x7d", Json.obj []⟩ =
      .unauthorized "Missing signature header" ∧
    handleWebhook ⟨some ""⟩ ⟨"POST", [], "\x7b\x7d", Json.obj []⟩ ≠
      .internalError "Webhook signing key not configured" :=
  C10_missing_header_takes_precedence _ _ rfl rfl

end Chronos
